import Mathlib

/-!
Shallow embedding of the bill anomaly/risk-scoring engine
(`src/anomaly.py`, class `BillAnomalyDetector`).

Python dictionaries carrying bill records are embedded as a structure of
optional fields: `none` means the key is absent from the dictionary, so
`dict.get(key, default)` becomes `Option.getD`.  Amounts (Python numbers)
are embedded as `Rat`; risk scores (Python ints) as `Int`.  The field
`tax_amount` is doubly optional because the code distinguishes an absent
key (`.get` default) from a present null (`x or 0` coercion), and the
training routine distinguishes both from a present number when it tests
for column presence.  `datetime.now()` is an implicit input of
`check_rules`; it is made an explicit `Clock` parameter.  The fitted
scikit-learn IsolationForest is external to this repository; it is
embedded as an abstract record `MLModel` whose `predictScore` returns
`none` when the underlying library call raises (the `except` branch).
-/

/-- Calendar date, as produced by `datetime.strptime(s, '%Y-%m-%d')`. -/
structure Date where
  year : Nat
  month : Nat
  day : Nat
deriving DecidableEq

/-- Key embedding the lexicographic order on (year, month, day); faithful
because parsed dates satisfy `month ≤ 12`, `day ≤ 31`, `year ≤ 9999`. -/
def Date.key (d : Date) : Nat :=
  d.year * 10000 + d.month * 100 + d.day

/-- The value of `datetime.now()` at the moment `check_rules` runs: a
calendar date plus whether the time of day is strictly after midnight
(a `strptime`-parsed date has time exactly midnight, so it compares
strictly below `now` on the same calendar day iff `afterMidnight`). -/
structure Clock where
  date : Date
  afterMidnight : Bool
deriving DecidableEq

/-- Embedding of `due_date_obj < datetime.now()` for a parsed date `d`. -/
def dateBeforeNow (d : Date) (now : Clock) : Bool :=
  d.key < now.date.key || (d.key == now.date.key && now.afterMidnight)

/-- Number of days in a month, with the Gregorian leap-year rule, as
validated by `datetime.strptime`. -/
def daysInMonth (y m : Nat) : Nat :=
  if m = 2 then
    if (y % 4 = 0 && y % 100 ≠ 0) || y % 400 = 0 then 29 else 28
  else if m = 4 ∨ m = 6 ∨ m = 9 ∨ m = 11 then 30
  else 31

/-- Numeric value of a digit string. -/
def natOfDigits (s : String) : Nat :=
  s.toList.foldl (fun a c => a * 10 + (c.toNat - 48)) 0

/-- Token accepted by the strptime pattern for `%Y`: exactly four
digits. -/
def isYearTok (s : String) : Bool :=
  s.length == 4 && s.data.all Char.isDigit

/-- Token accepted by the strptime pattern for `%m`:
`1[0-2]|0[1-9]|[1-9]` — one or two digits with value 1-12, no space
padding. -/
def isMonthTok (s : String) : Bool :=
  match s.data with
  | [c] => c.isDigit && c != '0'
  | [c1, c2] =>
    (c1 == '1' && (c2 == '0' || c2 == '1' || c2 == '2'))
    || (c1 == '0' && c2.isDigit && c2 != '0')
  | _ => false

/-- Token accepted by the strptime pattern for `%d`:
`3[01]|[12]\d|0[1-9]|[1-9]| [1-9]` — a two-digit day 01-31, a bare digit
1-9, or a space-padded digit 1-9. -/
def isDayTok (s : String) : Bool :=
  match s.data with
  | [c] => c.isDigit && c != '0'
  | [c1, c2] =>
    (c1 == '3' && (c2 == '0' || c2 == '1'))
    || ((c1 == '1' || c1 == '2') && c2.isDigit)
    || (c1 == '0' && c2.isDigit && c2 != '0')
    || (c1 == ' ' && c2.isDigit && c2 != '0')
  | _ => false

/-- Numeric value of a matched token, ignoring the optional leading space
allowed by the `%d` pattern. -/
def tokNat (s : String) : Nat :=
  natOfDigits (String.mk (s.data.dropWhile fun c => c == ' '))

/-- Split a character list at every occurrence of `sep` (the semantics of
`str.split(sep)` for a one-character separator). -/
def splitOnChar (sep : Char) : List Char → List (List Char)
  | [] => [[]]
  | c :: cs =>
    let r := splitOnChar sep cs
    if c = sep then [] :: r
    else
      match r with
      | [] => [[c]]
      | h :: t => (c :: h) :: t

/-- Embedding of `datetime.strptime(s, '%Y-%m-%d')`, following the token
patterns CPython compiles for this format: `%Y` is exactly four digits, a
literal dash, `%m` is `1[0-2]|0[1-9]|[1-9]`, a literal dash, `%d` is
`3[01]|[12]\d|0[1-9]|[1-9]| [1-9]` (so a space-padded day is accepted),
and the whole string must be consumed — since no token may contain a
dash, regex matching coincides with splitting at the dashes.  The matched
values must then form a real `datetime`: year 0 and a day beyond the
month length are rejected.  `none` embeds the raised `ValueError`. -/
def parseDate (s : String) : Option Date :=
  match (splitOnChar ('-') s.data).map String.mk with
  | [ys, ms, ds] =>
    if isYearTok ys && isMonthTok ms && isDayTok ds then
      let y := natOfDigits ys
      let m := tokNat ms
      let d := tokNat ds
      if 1 ≤ y && d ≤ daysInMonth y m
      then some ⟨y, m, d⟩
      else none
    else none
  | _ => none

/-- A bill record (Python dict). `none` = key absent. For `tax_amount`,
`some none` = key present with value `None` (null). -/
structure Bill where
  vendor_name : Option String := none
  total_amount : Option Rat := none
  tax_amount : Option (Option Rat) := none
  bill_date : Option String := none
  due_date : Option String := none
  invoice_number : Option String := none
deriving DecidableEq

/-- Embedding of `bill.get('total_amount', 0)`. -/
def getTotal (b : Bill) : Rat :=
  b.total_amount.getD 0

/-- Embedding of `bill.get('tax_amount', 0) or 0`: an absent key gives the
default `0`; a present `None` is falsy, so `or` yields `0`; a present
number `v` gives `v` (and `0 or 0 = 0`). -/
def taxOrZero (t : Option (Option Rat)) : Rat :=
  match t with
  | none => 0
  | some none => 0
  | some (some v) => if v = 0 then 0 else v

/-- Embedding of `bill.get('vendor_name', '')`. -/
def getVendor (b : Bill) : String :=
  b.vendor_name.getD ("")

/-- Embedding of `bill.get('bill_date', '')`. -/
def getBillDate (b : Bill) : String :=
  b.bill_date.getD ("")

/-- Python truthiness test `not x` for an optional string (`None` and the
empty string are falsy). -/
def strFalsy (o : Option String) : Bool :=
  match o with
  | none => true
  | some s => s == ""

/-- Embedding of Python `str.strip()`: drop whitespace from both ends. -/
def pyStrip (s : String) : String :=
  String.mk (((s.data.dropWhile Char.isWhitespace).reverse.dropWhile
    Char.isWhitespace).reverse)

/-- Embedding of Python `str.lower()`: lowercase every character. -/
def pyLower (s : String) : String :=
  String.mk (s.data.map Char.toLower)

/-- Rule 1 of `check_rules`: `total_amount > 50000` (anomaly.py:132-133). -/
def rule_high_amount (bill : Bill) : List String :=
  if getTotal bill > 50000 then ["Amount unusually high"] else []

/-- Rule 2 of `check_rules`:
`total_amount > 0 and tax_amount > total_amount * 0.35` (anomaly.py:135-136). -/
def rule_tax (bill : Bill) : List String :=
  if getTotal bill > 0 ∧ taxOrZero bill.tax_amount > getTotal bill * (35 / 100) then
    ["Tax exceeds 35% of total"]
  else []

/-- Rule 3 of `check_rules` (anomaly.py:138-144): when `due_date` is truthy,
parse it as `%Y-%m-%d`; a parse failure is caught and yields no violation;
otherwise flag the bill when the parsed date is before `now`. -/
def rule_overdue (now : Clock) (bill : Bill) : List String :=
  match bill.due_date with
  | some s =>
    if s ≠ "" then
      match parseDate s with
      | some d => if dateBeforeNow d now then ["Bill is overdue"] else []
      | none => []
    else []
  | none => []

/-- Rule 4 of `check_rules`:
`not vendor_name or vendor_name.strip() == ''` (anomaly.py:146-147). -/
def rule_vendor_missing (bill : Bill) : List String :=
  if getVendor bill = "" ∨ pyStrip (getVendor bill) = "" then ["Vendor name missing"] else []

/-- Rule 5 of `check_rules`: `total_amount <= 0` (anomaly.py:149-150). -/
def rule_invalid_amount (bill : Bill) : List String :=
  if getTotal bill ≤ 0 then ["Invalid amount"] else []

/-- Rule 6 of `check_rules`: `not invoice_number` (anomaly.py:152-153). -/
def rule_invoice_missing (bill : Bill) : List String :=
  if strFalsy bill.invoice_number then ["Missing invoice number"] else []

/-- Embedding of `BillAnomalyDetector.check_rules` (anomaly.py:114-158).
The six rules run in this fixed order, each appending its label when
violated; `now` is the value of `datetime.now()` in the overdue rule. -/
def check_rules (now : Clock) (bill : Bill) : List String :=
  rule_high_amount bill
  ++ rule_tax bill
  ++ rule_overdue now bill
  ++ rule_vendor_missing bill
  ++ rule_invalid_amount bill
  ++ rule_invoice_missing bill

/-- Normalization applied to vendor names in `check_duplicate`:
`.strip().lower()`. -/
def normVendor (s : String) : String :=
  pyLower (pyStrip s)

/-- The per-record comparison inside `check_duplicate`'s scan loop. -/
def dupMatch (vendor : String) (amount : Rat) (date : String) (eb : Bill) : Bool :=
  (normVendor (getVendor eb) == vendor)
    && (getTotal eb == amount)
    && (getBillDate eb == date)

/-- Embedding of `BillAnomalyDetector.check_duplicate` (anomaly.py:160-189):
short-circuits to `false` when the normalized candidate vendor or the raw
candidate date is empty, otherwise scans `all_bills` for an exact match on
(normalized vendor, amount, raw date). -/
def check_duplicate (bill : Bill) (all_bills : List Bill) : Bool :=
  let vendor := normVendor (getVendor bill)
  let amount := getTotal bill
  let date := getBillDate bill
  if vendor = "" ∨ date = "" then false
  else all_bills.any (dupMatch vendor amount date)

/-- Abstract fitted IsolationForest (external scikit-learn object).
`predictScore a t` is the joint outcome of `model.predict` (±1) and
`model.score_samples`; `none` embeds a raised exception, caught by
`check_ml_anomaly`. -/
structure MLModel where
  predictScore : Rat → Rat → Option (Int × Rat)

/-- Embedding of `BillAnomalyDetector.check_ml_anomaly` (anomaly.py:83-112):
`(false, 0.0)` when no model is loaded or the library call raises;
otherwise anomaly iff the prediction is −1, with confidence
`min(max(abs(score)*100, 0), 100)`. -/
def check_ml_anomaly (model : Option MLModel) (amount tax : Rat) : Bool × Rat :=
  match model with
  | none => (false, 0)
  | some m =>
    match m.predictScore amount tax with
    | none => (false, 0)
    | some (prediction, score) =>
      let is_anomaly := prediction == -1
      let confidence := min (max (|score| * 100) 0) 100
      (is_anomaly, confidence)

/-- The report dictionary returned by `full_check`. -/
structure AnomalyReport where
  is_anomaly : Bool
  is_duplicate : Bool
  rule_violations : List String
  risk_score : Int
  recommendation : String
  ml_confidence : Rat
deriving DecidableEq

/-- The rule-violation penalty term of `full_check`:
`min(len(rule_violations) * 20, 40)` (anomaly.py:218). -/
def violation_penalty (rule_violations : List String) : Int :=
  min ((rule_violations.length : Int) * 20) 40

/-- The recommendation ladder of `full_check` (anomaly.py:226-231). -/
def recommendation_of (risk_score : Int) : String :=
  if risk_score < 30 then ("approve")
  else if risk_score < 70 then ("review")
  else ("reject")

/-- Embedding of `BillAnomalyDetector.full_check` (anomaly.py:191-243).
`model` is the detector state `self.model`; `now` the `datetime.now()`
reading used by the overdue rule. -/
def full_check (model : Option MLModel) (now : Clock) (bill : Bill)
    (all_bills : List Bill) : AnomalyReport :=
  let total_amount := getTotal bill
  let tax_amount := taxOrZero bill.tax_amount
  let ml := check_ml_anomaly model total_amount tax_amount
  let is_ml_anomaly := ml.1
  let ml_confidence := ml.2
  let rule_violations := check_rules now bill
  let is_duplicate := check_duplicate bill all_bills
  let risk_score : Int := 0
  let risk_score := if is_ml_anomaly then risk_score + 40 else risk_score
  let risk_score := risk_score + violation_penalty rule_violations
  let risk_score := if is_duplicate then risk_score + 30 else risk_score
  let risk_score := min risk_score 100
  { is_anomaly := is_ml_anomaly
    is_duplicate := is_duplicate
    rule_violations := rule_violations
    risk_score := risk_score
    recommendation := recommendation_of risk_score
    ml_confidence := ml_confidence }

/-- The mutable state of a `BillAnomalyDetector` touched by `train`:
`self.model` and `self.bills_history` (the persisted copies mirror them). -/
structure DetectorState where
  model : Option MLModel
  bills_history : List Bill

/-- `fillna(0)` on the tax column: absent key and null both read back from
the DataFrame as NaN and become `0`. -/
def taxFill (t : Option (Option Rat)) : Rat :=
  match t with
  | none => 0
  | some none => 0
  | some (some v) => v

/-- Embedding of `BillAnomalyDetector.train` (anomaly.py:39-81). `fit`
stands for `IsolationForest(contamination=0.1, random_state=42,
n_estimators=100).fit` on the two-column matrix (external library; a row
whose `total_amount` key is absent carries NaN, kept as `none`). An empty
input returns immediately; so does an input whose DataFrame lacks the
`total_amount` or `tax_amount` column (a column exists iff some record has
the key). On success the model is replaced and the history becomes the
input records. -/
def train (fit : List (Option Rat × Rat) → MLModel) (st : DetectorState)
    (bills_list : List Bill) : DetectorState :=
  if bills_list.isEmpty then st
  else if !(bills_list.any fun b => b.total_amount.isSome)
      || !(bills_list.any fun b => b.tax_amount.isSome) then st
  else
    let training_data := bills_list.map fun b => (b.total_amount, taxFill b.tax_amount)
    { model := some (fit training_data), bills_history := bills_list }

/-! Concrete records used to instantiate the theorems below. -/

/-- A fixed clock reading. -/
def clock0 : Clock := ⟨⟨2024, 1, 15⟩, true⟩

/-- A bill dictionary with no keys at all. -/
def bill0 : Bill := {}

/-- A bill with zero total, empty vendor name, empty invoice number and no
due date. -/
def emptyBill : Bill :=
  { vendor_name := some (""), total_amount := some 0, invoice_number := some ("") }

/-- First bill of the duplicate-symmetry pair. -/
def acmeBillA : Bill :=
  { vendor_name := some ("Acme Inc"), total_amount := some 100,
    bill_date := some ("2024-01-05") }

/-- Second bill of the duplicate-symmetry pair: same amount and date, vendor
name differing only by surrounding whitespace and case. -/
def acmeBillB : Bill :=
  { vendor_name := some ("  acme inc "), total_amount := some 100,
    bill_date := some ("2024-01-05") }

/-- A well-formed bill whose due date falls between the two clock readings
below. -/
def dueBill : Bill :=
  { vendor_name := some ("V"), total_amount := some 100, tax_amount := some (some 5),
    bill_date := some ("2024-01-01"), due_date := some ("2024-06-01"),
    invoice_number := some ("INV-1") }

/-- A clock reading before `dueBill`'s due date. -/
def clockEarly : Clock := ⟨⟨2024, 1, 1⟩, true⟩

/-- A clock reading after `dueBill`'s due date. -/
def clockLate : Clock := ⟨⟨2024, 12, 31⟩, true⟩

/-- A bill whose `total_amount` key is missing but whose vendor and date are
set. -/
def noAmountBillA : Bill :=
  { vendor_name := some ("a"), bill_date := some ("2024-01-01") }

/-- A second record with the same vendor and date and no `total_amount`. -/
def noAmountBillB : Bill :=
  { vendor_name := some ("a"), bill_date := some ("2024-01-01") }

/-- A bill whose `vendor_name` key is missing. -/
def noVendorBill : Bill :=
  { bill_date := some ("2024-01-01"), total_amount := some 5 }

/-- A bill whose due date is not a valid calendar date (February 30). -/
def bogusDueBill : Bill :=
  { vendor_name := some ("V"), total_amount := some 100,
    due_date := some ("2023-02-30"), invoice_number := some ("I") }

/-- A bill whose `tax_amount` key is present but null. -/
def nullTaxBill : Bill :=
  { vendor_name := some ("V"), total_amount := some 100, tax_amount := some none,
    invoice_number := some ("I") }

/-- A detector state with no model and no history. -/
def stEx : DetectorState := ⟨none, []⟩

/-- A stand-in fitting function (its value is irrelevant on the guarded
paths of `train`). -/
def fitEx : List (Option Rat × Rat) → MLModel := fun _ => ⟨fun _ _ => none⟩

/-- A training record with neither amount column. -/
def noColBill : Bill := { vendor_name := some ("V") }

/-! Helper lemmas. -/

/-- Membership in a conditional singleton forces the element. -/
theorem mem_ite_singleton {x y : String} {c : Prop} [Decidable c]
    (h : x ∈ (if c then [y] else [])) : x = y := by
  split at h <;> simp_all

/-- Any element of `rule_high_amount` is its label. -/
theorem mem_rule_high_amount {x : String} {bill : Bill}
    (h : x ∈ rule_high_amount bill) : x = "Amount unusually high" :=
  mem_ite_singleton h

/-- Any element of `rule_tax` is its label. -/
theorem mem_rule_tax {x : String} {bill : Bill}
    (h : x ∈ rule_tax bill) : x = "Tax exceeds 35% of total" :=
  mem_ite_singleton h

/-- Any element of `rule_overdue` is its label. -/
theorem mem_rule_overdue {x : String} {now : Clock} {bill : Bill}
    (h : x ∈ rule_overdue now bill) : x = "Bill is overdue" := by
  unfold rule_overdue at h
  split at h
  · split at h
    · split at h
      · exact mem_ite_singleton h
      · simp at h
    · simp at h
  · simp at h

/-- Any element of `rule_vendor_missing` is its label. -/
theorem mem_rule_vendor_missing {x : String} {bill : Bill}
    (h : x ∈ rule_vendor_missing bill) : x = "Vendor name missing" :=
  mem_ite_singleton h

/-- Any element of `rule_invalid_amount` is its label. -/
theorem mem_rule_invalid_amount {x : String} {bill : Bill}
    (h : x ∈ rule_invalid_amount bill) : x = "Invalid amount" :=
  mem_ite_singleton h

/-- Any element of `rule_invoice_missing` is its label. -/
theorem mem_rule_invoice_missing {x : String} {bill : Bill}
    (h : x ∈ rule_invoice_missing bill) : x = "Missing invoice number" :=
  mem_ite_singleton h

/-- C1: for every model state, clock, bill and history, the risk score of
`full_check` is the sum of 40 when the ML verdict is anomalous, the penalty
`min(20 * number of rule violations, 40)`, and 30 when the bill is a
duplicate, clamped to at most 100; consequently it always lies in
`[0, 100]`. -/
theorem full_check_risk_score_spec (model : Option MLModel) (now : Clock)
    (bill : Bill) (all_bills : List Bill) :
    (full_check model now bill all_bills).risk_score
      = min ((if (full_check model now bill all_bills).is_anomaly then 40 else 0)
          + violation_penalty (check_rules now bill)
          + (if (full_check model now bill all_bills).is_duplicate then 30 else 0)) 100
    ∧ 0 ≤ (full_check model now bill all_bills).risk_score
    ∧ (full_check model now bill all_bills).risk_score ≤ 100 := by
  have hvp : 0 ≤ violation_penalty (check_rules now bill)
      ∧ violation_penalty (check_rules now bill) ≤ 40 := by
    unfold violation_penalty
    omega
  simp only [full_check]
  split_ifs <;> omega

/-- C2: the recommendation returned by `full_check` is exactly
`recommendation_of` applied to the risk score, and that ladder maps
`score < 30` to approve, `30 ≤ score < 70` to review and `70 ≤ score` to
reject; in particular 29, 30, 69 and 70 map to approve, review, review and
reject respectively. -/
theorem full_check_recommendation_spec (model : Option MLModel) (now : Clock)
    (bill : Bill) (all_bills : List Bill) :
    (full_check model now bill all_bills).recommendation
      = recommendation_of (full_check model now bill all_bills).risk_score
    ∧ (∀ s : Int,
        (s < 30 → recommendation_of s = "approve")
        ∧ (30 ≤ s → s < 70 → recommendation_of s = "review")
        ∧ (70 ≤ s → recommendation_of s = "reject"))
    ∧ recommendation_of 29 = "approve"
    ∧ recommendation_of 30 = "review"
    ∧ recommendation_of 69 = "review"
    ∧ recommendation_of 70 = "reject" := by
  refine ⟨rfl, fun s => ⟨?_, ?_, ?_⟩, by decide, by decide, by decide, by decide⟩
  · intro h
    unfold recommendation_of
    rw [if_pos h]
  · intro h1 h2
    unfold recommendation_of
    rw [if_neg (by omega), if_pos h2]
  · intro h
    unfold recommendation_of
    rw [if_neg (by omega), if_neg (by omega)]

/-- C2 witness: at a concrete bill the recommendation agrees with the
ladder, and a concrete mid-range score maps to review. -/
theorem full_check_recommendation_spec_witness :
    (full_check none clock0 bill0 []).recommendation
      = recommendation_of (full_check none clock0 bill0 []).risk_score
    ∧ recommendation_of 50 = "review" :=
  ⟨(full_check_recommendation_spec none clock0 bill0 []).1,
   ((full_check_recommendation_spec none clock0 bill0 []).2.1 50).2.1
     (by decide) (by decide)⟩

/-- C3: with no trained model, the ML step returns `(false, 0)` for every
input, and every `full_check` report has `is_anomaly = false` and
`ml_confidence = 0`, with no error raised (the embedding is total). -/
theorem check_ml_anomaly_no_model (amount tax : Rat) :
    check_ml_anomaly none amount tax = (false, 0)
    ∧ ∀ (now : Clock) (bill : Bill) (hist : List Bill),
        (full_check none now bill hist).is_anomaly = false
        ∧ (full_check none now bill hist).ml_confidence = 0 :=
  ⟨rfl, fun _ _ _ => ⟨rfl, rfl⟩⟩

/-- C4: `check_duplicate` returns false without scanning when the
candidate's normalized vendor name or its raw date is empty; otherwise it
returns true exactly when some history record matches the candidate on
normalized vendor name, total amount (exact equality) and raw date
string. -/
theorem check_duplicate_iff (bill : Bill) (hist : List Bill) :
    ((normVendor (getVendor bill) = "" ∨ getBillDate bill = "") →
        check_duplicate bill hist = false)
    ∧ (normVendor (getVendor bill) ≠ "" → getBillDate bill ≠ "" →
        (check_duplicate bill hist = true ↔
          ∃ eb ∈ hist, normVendor (getVendor eb) = normVendor (getVendor bill)
            ∧ getTotal eb = getTotal bill
            ∧ getBillDate eb = getBillDate bill)) := by
  constructor
  · intro h
    unfold check_duplicate
    rw [if_pos h]
  · intro hv hd
    unfold check_duplicate
    rw [if_neg (by tauto)]
    simp only [List.any_eq_true, dupMatch, Bool.and_eq_true, beq_iff_eq]
    tauto

/-- C4 witness: the two Acme bills, whose vendor names differ only in
whitespace and case, are duplicates of each other. -/
theorem check_duplicate_iff_witness :
    check_duplicate acmeBillA [acmeBillB] = true
    ∧ check_duplicate acmeBillB [acmeBillA] = true :=
  ⟨((check_duplicate_iff acmeBillA [acmeBillB]).2 (by decide) (by decide)).mpr
      ⟨acmeBillB, by decide, by decide, by decide, by decide⟩,
   ((check_duplicate_iff acmeBillB [acmeBillA]).2 (by decide) (by decide)).mpr
      ⟨acmeBillA, by decide, by decide, by decide, by decide⟩⟩

/-- C5 counterexample: for the concrete bill with zero total, empty vendor
name, empty invoice number and no due date, the rule engine reports the
three expected violations but their contribution to the penalty term is
`min(3*20, 40) = 40`, not 60 as the claim states. -/
theorem rule_penalty_counterexample :
    check_rules clock0 emptyBill
      = ["Vendor name missing", "Invalid amount", "Missing invoice number"]
    ∧ violation_penalty (check_rules clock0 emptyBill) = 40
    ∧ violation_penalty (check_rules clock0 emptyBill) ≠ 60 := by
  decide

/-- C5 amended: every bill with zero total amount, empty vendor name, falsy
invoice number and no due date yields exactly the violations "Vendor name
missing", "Invalid amount", "Missing invoice number" (all six rules are
evaluated, none short-circuits), and this contributes
`min(3*20, 40) = 40` to the risk-score penalty term. -/
theorem check_rules_empty_bill (now : Clock) (bill : Bill)
    (htot : getTotal bill = 0) (hv : getVendor bill = "")
    (hinv : strFalsy bill.invoice_number = true) (hdue : bill.due_date = none) :
    check_rules now bill
      = ["Vendor name missing", "Invalid amount", "Missing invoice number"]
    ∧ violation_penalty (check_rules now bill) = 40 := by
  have h1 : rule_high_amount bill = [] := by
    unfold rule_high_amount
    rw [htot]
    norm_num
  have h2 : rule_tax bill = [] := by
    unfold rule_tax
    rw [htot]
    norm_num
  have h3 : rule_overdue now bill = [] := by
    unfold rule_overdue
    rw [hdue]
  have h4 : rule_vendor_missing bill = ["Vendor name missing"] := by
    unfold rule_vendor_missing
    rw [hv]
    simp
  have h5 : rule_invalid_amount bill = ["Invalid amount"] := by
    unfold rule_invalid_amount
    rw [htot]
    norm_num
  have h6 : rule_invoice_missing bill = ["Missing invoice number"] := by
    unfold rule_invoice_missing
    rw [hinv]
    simp
  have hall : check_rules now bill
      = ["Vendor name missing", "Invalid amount", "Missing invoice number"] := by
    unfold check_rules
    rw [h1, h2, h3, h4, h5, h6]
    rfl
  exact ⟨hall, by rw [hall]; decide⟩

/-- C5 witness: the amended statement evaluated at the concrete empty
bill. -/
theorem check_rules_empty_bill_witness :
    check_rules clock0 emptyBill
      = ["Vendor name missing", "Invalid amount", "Missing invoice number"]
    ∧ violation_penalty (check_rules clock0 emptyBill) = 40 :=
  check_rules_empty_bill clock0 emptyBill (by decide) (by decide) (by decide)
    (by decide)

/-- C6 counterexample: the same bill, same (empty) history and same absent
model produce different reports when `full_check` runs at two different
clock readings, because the overdue rule reads `datetime.now()`: the
due date 2024-06-01 is overdue at the late reading only. -/
theorem full_check_two_runs_counterexample :
    full_check none clockEarly dueBill [] ≠ full_check none clockLate dueBill [] := by
  have htax : rule_tax dueBill = [] := by
    unfold rule_tax
    rw [if_neg]
    rintro ⟨h1, h2⟩
    have ht : taxOrZero dueBill.tax_amount = 5 := by decide
    have hg : getTotal dueBill = 100 := by decide
    rw [ht, hg] at h2
    norm_num at h2
  have e1 : check_rules clockEarly dueBill = [] := by
    have r1 : rule_high_amount dueBill = [] := by decide
    have r3 : rule_overdue clockEarly dueBill = [] := by decide
    have r4 : rule_vendor_missing dueBill = [] := by decide
    have r5 : rule_invalid_amount dueBill = [] := by decide
    have r6 : rule_invoice_missing dueBill = [] := by decide
    unfold check_rules
    rw [r1, htax, r3, r4, r5, r6]
    rfl
  have e2 : check_rules clockLate dueBill = ["Bill is overdue"] := by
    have r1 : rule_high_amount dueBill = [] := by decide
    have r3 : rule_overdue clockLate dueBill = ["Bill is overdue"] := by decide
    have r4 : rule_vendor_missing dueBill = [] := by decide
    have r5 : rule_invalid_amount dueBill = [] := by decide
    have r6 : rule_invoice_missing dueBill = [] := by decide
    unfold check_rules
    rw [r1, htax, r3, r4, r5, r6]
    rfl
  intro h
  have hproj := congrArg AnomalyReport.rule_violations h
  have p1 : (full_check none clockEarly dueBill []).rule_violations
      = check_rules clockEarly dueBill := rfl
  have p2 : (full_check none clockLate dueBill []).rule_violations
      = check_rules clockLate dueBill := rfl
  rw [p1, p2, e1, e2] at hproj
  exact absurd hproj (by simp)

/-- C6 amended: `full_check` is deterministic in its complete set of
inputs — model state, the `datetime.now()` reading taken by the overdue
rule, bill, and history; two runs agreeing on all four yield identical
reports. -/
theorem full_check_deterministic (model modelB : Option MLModel)
    (now nowB : Clock) (bill billB : Bill) (hist histB : List Bill)
    (hm : model = modelB) (hn : now = nowB) (hb : bill = billB)
    (hh : hist = histB) :
    full_check model now bill hist = full_check modelB nowB billB histB := by
  rw [hm, hn, hb, hh]

/-- C6 witness: the amended determinism statement applied at a concrete
input. -/
theorem full_check_deterministic_witness :
    full_check none clock0 dueBill [acmeBillA]
      = full_check none clock0 dueBill [acmeBillA] :=
  full_check_deterministic none none clock0 clock0 dueBill dueBill
    [acmeBillA] [acmeBillA] rfl rfl rfl rfl

/-- C7 counterexample: a candidate and a history record that both lack the
`total_amount` key (it defaults to 0 on both sides) but agree on vendor and
date are still reported as duplicates, so a missing field does not always
degrade the result to "not a duplicate". -/
theorem check_duplicate_missing_amount_counterexample :
    noAmountBillA.total_amount = none
    ∧ noAmountBillB.total_amount = none
    ∧ check_duplicate noAmountBillA [noAmountBillB] = true := by
  decide

/-- C7 amended: `check_duplicate` is a total function (the embedding never
fails); a candidate whose `vendor_name` or `bill_date` key is missing
yields `false`, and whenever the result is `true` every run reaching it
went through history records, each matching record having both its
`vendor_name` and `bill_date` keys present; a missing `total_amount`,
by contrast, is coerced to 0 and can still match. -/
theorem check_duplicate_missing_fields (bill : Bill) (hist : List Bill) :
    (bill.vendor_name = none → check_duplicate bill hist = false)
    ∧ (bill.bill_date = none → check_duplicate bill hist = false)
    ∧ (check_duplicate bill hist = true →
        ∃ eb ∈ hist, eb.vendor_name ≠ none ∧ eb.bill_date ≠ none) := by
  refine ⟨?_, ?_, ?_⟩
  · intro h
    unfold check_duplicate
    rw [if_pos (Or.inl (by rw [getVendor, h]; rfl))]
  · intro h
    unfold check_duplicate
    rw [if_pos (Or.inr (by rw [getBillDate, h]; rfl))]
  · intro h
    unfold check_duplicate at h
    by_cases hg : normVendor (getVendor bill) = "" ∨ getBillDate bill = ""
    · rw [if_pos hg] at h
      exact absurd h (by simp)
    · rw [if_neg hg] at h
      push_neg at hg
      obtain ⟨eb, hmem, hmatch⟩ := List.any_eq_true.mp h
      simp only [dupMatch, Bool.and_eq_true, beq_iff_eq] at hmatch
      refine ⟨eb, hmem, ?_, ?_⟩
      · intro hnone
        have hne : normVendor (getVendor eb) = "" := by
          rw [getVendor, hnone]
          rfl
        exact hg.1 (hmatch.1.1 ▸ hne)
      · intro hnone
        have hde : getBillDate eb = "" := by
          rw [getBillDate, hnone]
          rfl
        exact hg.2 (hmatch.2 ▸ hde)

/-- C7 witness: a candidate without a `vendor_name` key is not a duplicate
of anything. -/
theorem check_duplicate_missing_fields_witness :
    check_duplicate noVendorBill [acmeBillA] = false :=
  (check_duplicate_missing_fields noVendorBill [acmeBillA]).1 rfl

/-- C8: a due-date string that fails to parse as a YYYY-MM-DD calendar
date produces no overdue violation, leaves the other rules and the overall
check unaffected (the violation list and the whole report equal those of
the same bill without a due date), and never aborts: the embedding is
total. -/
theorem due_date_parse_failure (model : Option MLModel) (now : Clock)
    (bill : Bill) (hist : List Bill) (s : String)
    (hdue : bill.due_date = some s) (hparse : parseDate s = none) :
    "Bill is overdue" ∉ check_rules now bill
    ∧ check_rules now bill = check_rules now { bill with due_date := none }
    ∧ full_check model now bill hist
        = full_check model now { bill with due_date := none } hist := by
  have hov : rule_overdue now bill = [] := by
    unfold rule_overdue
    rw [hdue]
    rcases eq_or_ne s ("") with hs | hs
    · simp [hs]
    · simp [hs, hparse]
  have hrules : check_rules now bill
      = check_rules now { bill with due_date := none } := by
    unfold check_rules
    rw [hov]
    rfl
  refine ⟨?_, hrules, ?_⟩
  · intro hm
    unfold check_rules at hm
    rw [hov] at hm
    simp only [List.mem_append, List.not_mem_nil, or_false, false_or] at hm
    rcases hm with ((((hmm | hmm) | hmm) | hmm) | hmm)
    · exact absurd (mem_rule_high_amount hmm) (by decide)
    · exact absurd (mem_rule_tax hmm) (by decide)
    · exact absurd (mem_rule_vendor_missing hmm) (by decide)
    · exact absurd (mem_rule_invalid_amount hmm) (by decide)
    · exact absurd (mem_rule_invoice_missing hmm) (by decide)
  · unfold full_check
    rw [hrules]
    rfl

/-- C8 witness: February 30 is not a calendar date, so the overdue rule is
skipped for a bill due on "2023-02-30" and the report matches the one of
the bill without a due date. -/
theorem due_date_parse_failure_witness :
    "Bill is overdue" ∉ check_rules clock0 bogusDueBill
    ∧ full_check none clock0 bogusDueBill []
        = full_check none clock0 { bogusDueBill with due_date := none } [] :=
  ⟨(due_date_parse_failure none clock0 bogusDueBill [] ("2023-02-30") rfl
      (by decide)).1,
   (due_date_parse_failure none clock0 bogusDueBill [] ("2023-02-30") rfl
      (by decide)).2.2⟩

/-- C9: `train` on an empty list returns immediately, and `train` on
records that all lack the `total_amount` key or all lack the `tax_amount`
key (so the DataFrame is missing a required column) returns without
touching the detector state — no partial or corrupt replacement. -/
theorem train_missing_columns (fit : List (Option Rat × Rat) → MLModel)
    (st : DetectorState) (bills_list : List Bill) :
    (bills_list = [] → train fit st bills_list = st)
    ∧ (((∀ b ∈ bills_list, b.total_amount = none)
        ∨ (∀ b ∈ bills_list, b.tax_amount = none)) →
        train fit st bills_list = st) := by
  constructor
  · intro h
    subst h
    rfl
  · intro h
    unfold train
    by_cases he : bills_list.isEmpty
    · rw [if_pos he]
    · have hcond : (!(bills_list.any fun b => b.total_amount.isSome)
          || !(bills_list.any fun b => b.tax_amount.isSome)) = true := by
        rcases h with h | h
        · have h1 : (bills_list.any fun b => b.total_amount.isSome) = false := by
            simp only [List.any_eq_false]
            intro b hb
            simp [h b hb]
          rw [h1]
          simp
        · have h1 : (bills_list.any fun b => b.tax_amount.isSome) = false := by
            simp only [List.any_eq_false]
            intro b hb
            simp [h b hb]
          rw [h1]
          simp
      rw [if_neg he, if_pos hcond]

/-- C9 witness: training on nothing, and on a single record carrying only
a vendor name, both leave the empty detector state unchanged. -/
theorem train_missing_columns_witness :
    train fitEx stEx [] = stEx ∧ train fitEx stEx [noColBill] = stEx :=
  ⟨(train_missing_columns fitEx stEx []).1 rfl,
   (train_missing_columns fitEx stEx [noColBill]).2
     (Or.inl (by
        intro b hb
        rw [List.mem_singleton] at hb
        subst hb
        rfl))⟩

/-- With a zero tax value the tax-ratio rule cannot fire: its guard needs
`tax > total * 0.35` with `total > 0`, impossible at tax 0. -/
theorem rule_tax_nil_of_zero (bill : Bill) (h : taxOrZero bill.tax_amount = 0) :
    rule_tax bill = [] := by
  unfold rule_tax
  rw [if_neg]
  rintro ⟨h1, h2⟩
  rw [h] at h2
  have hp : (0 : Rat) < getTotal bill * (35 / 100) :=
    mul_pos h1 (by norm_num)
  linarith

/-- C10: when the `tax_amount` key is absent or present but null, the tax
value is coerced to 0 before any comparison, the tax-ratio rule can never
fire, and rule evaluation never errors (the embedding is total). -/
theorem null_tax_never_fires (now : Clock) (bill : Bill)
    (h : bill.tax_amount = none ∨ bill.tax_amount = some none) :
    taxOrZero bill.tax_amount = 0
    ∧ "Tax exceeds 35% of total" ∉ check_rules now bill := by
  have h0 : taxOrZero bill.tax_amount = 0 := by
    rcases h with h | h <;> rw [h] <;> rfl
  refine ⟨h0, ?_⟩
  intro hm
  unfold check_rules at hm
  rw [rule_tax_nil_of_zero bill h0] at hm
  simp only [List.mem_append, List.not_mem_nil, or_false, false_or] at hm
  rcases hm with ((((hmm | hmm) | hmm) | hmm) | hmm)
  · exact absurd (mem_rule_high_amount hmm) (by decide)
  · exact absurd (mem_rule_overdue hmm) (by decide)
  · exact absurd (mem_rule_vendor_missing hmm) (by decide)
  · exact absurd (mem_rule_invalid_amount hmm) (by decide)
  · exact absurd (mem_rule_invoice_missing hmm) (by decide)

/-- C10 witness: a bill with a present-but-null `tax_amount` evaluates tax
to 0 and triggers no tax-ratio violation. -/
theorem null_tax_never_fires_witness :
    taxOrZero nullTaxBill.tax_amount = 0
    ∧ "Tax exceeds 35% of total" ∉ check_rules clock0 nullTaxBill :=
  null_tax_never_fires clock0 nullTaxBill (Or.inr rfl)
